import Mathlib

/-!
# ShipControl socket helper (`src/ship/socket.cpp`), POSIX build

A shallow embedding of the TCP helper of `socket.cpp` (the branches taken when
`_WIN32` is not defined) and proofs about it.

Modelling conventions.

* Machine integers are `Int` values; every C conversion that can change a value
  is written out (`toInt`, `toUInt`, `toShort`, `toUShort`, `toSizeT`), for an
  LP64 target (`int` 32 bits, `short` 16 bits, `size_t` 64 bits).
* An operating-system call cannot be computed: the value it returns is an input
  of the model.  Each function takes a record holding the result of every
  system call it can make (each call site runs at most once per invocation, the
  code has no loop around a system call) and returns a `Run`: the C return
  value together with the system calls performed, in program order, with their
  arguments and results.  Quantifying over the record is quantifying over every
  behaviour of the operating system.
* `FD_SET` on a descriptor outside `[0, FD_SETSIZE)` writes outside the
  `fd_set` object, which is undefined behaviour. The model then follows the
  text of the source and records the arguments of `select` as undetermined;
  statements about those arguments assume `0 ≤ sockfd < FD_SETSIZE`.
* Functions that are declared in headers but whose code is not in `src/ship`
  (`isIPv4`, `isIPv6`, `inet_pton`), the byte order of the host and the
  process-wide `connect_timeout` are fields of `Env`; `inet_ntop` is a
  parameter of the two functions that render addresses.
-/

namespace ShipControl

/-! ## Integer conversions of the C abstract machine (LP64) -/

/-- Conversion to `unsigned int`: reduction modulo `2^32`. -/
def toUInt (x : Int) : Int := x % 4294967296

/-- Conversion to `int`: two's-complement wrap into `[-2^31, 2^31)`. -/
def toInt (x : Int) : Int :=
  if x % 4294967296 < 2147483648 then x % 4294967296 else x % 4294967296 - 4294967296

/-- Conversion to `unsigned short` (`uint16_t`): reduction modulo `2^16`. -/
def toUShort (x : Int) : Int := x % 65536

/-- Conversion to `short`: two's-complement wrap into `[-2^15, 2^15)`. -/
def toShort (x : Int) : Int :=
  if x % 65536 < 32768 then x % 65536 else x % 65536 - 65536

/-- Conversion to `size_t`: reduction modulo `2^64`. -/
def toSizeT (x : Int) : Int := x % 18446744073709551616

/-- The C operator `&` on two `int` values (two's complement, 32 bits). -/
def bitAnd (a b : Int) : Int := toInt (Nat.land (toUInt a).toNat (toUInt b).toNat)

/-- The C operator `|` on two `int` values (two's complement, 32 bits). -/
def bitOr (a b : Int) : Int := toInt (Nat.lor (toUInt a).toNat (toUInt b).toNat)

/-- The C operator `~` on an `int` value (two's complement, 32 bits). -/
def bitNot (a : Int) : Int := toInt (Nat.xor (toUInt a).toNat 4294967295)

/-- Bit `i` of the 32-bit two's-complement representation of an `int`. -/
def intBit (x : Int) (i : Nat) : Bool := (toUInt x).toNat.testBit i

/-! ## Constants of the system headers (Linux values) and of `socket.cpp` -/

def AF_UNSPEC : Int := 0
def AF_INET : Int := 2
def AF_INET6 : Int := 10
def SOCK_STREAM : Int := 1
def IPPROTO_IP : Int := 0
def SOL_SOCKET : Int := 1
def SO_ERROR : Int := 4
def SO_RCVTIMEO : Int := 20
def SO_SNDTIMEO : Int := 21
def MSG_NOSIGNAL : Int := 16384
def O_NONBLOCK : Int := 2048

/-- Line 54 of `socket.cpp`: `#define SOCKET_ERROR -1`. -/
def SOCKET_ERROR : Int := -1

/-- Modelled from the spec: `INVALID_SOCKET` is defined in `socket.h`, which is
not in `src/ship`; the spec calls it the invalid-handle sentinel returned when
socket creation fails, which on POSIX is `-1`. -/
def INVALID_SOCKET : Int := -1

/-! ## Data -/

/-- A C `struct timeval`. -/
structure timeval where
  tv_sec : Int
  tv_usec : Int
deriving DecidableEq

/-- The fields of a `sockaddr_in` / `sockaddr_in6` that the code touches:
the family, the port field (`sin_port` / `sin6_port`, as the `uint16_t` value
the host stores) and the address bytes (`sin_addr` / `sin6_addr`). -/
structure sockaddr where
  sa_family : Int
  port : Int
  addr : List Nat
deriving DecidableEq

/-- A `std::string` used as a byte buffer. -/
abbrev Bytes := List (Fin 256)

/-- One system call, with its arguments and what it returned. The descriptor
set and the `timeval` handed to `select` are `none` when the source does not
determine them (see `FD_SET`). -/
inductive Event where
  | socket (af type protocol ret : Int)
  | fcntl_getfl (fd ret : Int)
  | fcntl_setfl (fd flags ret : Int)
  | connect (fd : Int) (addr : sockaddr) (addrsize ret : Int)
  | select (nfds : Int) (writefds : Option (List Int)) (timeout : Option timeval) (ret : Int)
  | getsockopt (fd level optname ret : Int)
  | setsockopt (fd level optname : Int) (optval : timeval) (ret : Int)
  | send (fd : Int) (buf : Bytes) (len flags ret : Int)
  | close (fd : Int)
deriving DecidableEq

/-- The outcome of running a function: its C return value and the system calls
it performed, oldest first. -/
structure Run where
  ret : Int
  trace : List Event
deriving DecidableEq

/-- What the functions take from outside `socket.cpp`: the process-wide
`connect_timeout` (line 16, default 3000), the address classifiers declared in
`misc.h`, the C library `inet_pton` and the byte order of the host. -/
structure Env where
  connect_timeout : Int
  isIPv4 : String → Bool
  isIPv6 : String → Bool
  inet_pton : Int → String → List Nat
  bigEndian : Bool

/-- Results of the two `fcntl` calls of one `setSocketBlocking` invocation. -/
structure FcntlResults where
  getfl : Int
  setfl : Int
deriving DecidableEq

/-- Results of the two `setsockopt` calls of `setTimeout`. -/
structure TimeoutResults where
  sndtimeo : Int
  rcvtimeo : Int
deriving DecidableEq

/-- Results of the system calls of one `connect_adv` invocation. `so_error` is
the value the kernel stores through the `optval` pointer when `getsockopt`
succeeds (returns 0); when it fails the variable `error` keeps its value. -/
structure ConnectResults where
  nonblock : FcntlResults
  connect : Int
  select : Int
  getsockopt : Int
  so_error : Int
  restore : FcntlResults
deriving DecidableEq

/-- Results of the system calls of one `simpleSend` invocation. -/
structure SendResults where
  socket : Int
  conn : ConnectResults
  timeo : TimeoutResults
  send : Int
deriving DecidableEq

/-! ## The functions of `socket.cpp` -/

/-- Lines 76-83: `Send`, POSIX branch. The parameter `len` is an `int`; `send`
receives it converted to `size_t`, and its `ssize_t` result is returned as
`int`. -/
def Send (sendResult : Int) (sHost : Int) (data : Bytes) (len : Int) (flags : Int) : Run :=
  let r := toInt sendResult
  ⟨r, [Event.send sHost data (toSizeT len) (bitOr flags MSG_NOSIGNAL) r]⟩

/-- Lines 94-102: `getNetworkType`. -/
def getNetworkType (env : Env) (addr : String) : Int :=
  if env.isIPv4 addr then AF_INET
  else if env.isIPv6 addr then AF_INET6
  else AF_UNSPEC

/-- Lines 104-116: `setTimeout`, POSIX branch. `ret` is assigned by both
`setsockopt` calls in turn and the last assignment is what is returned. C
integer division and remainder truncate toward zero. -/
def setTimeout (os : TimeoutResults) (s : Int) (timeout : Int) : Run :=
  let timeo : timeval := ⟨Int.tdiv timeout 1000, Int.tmod timeout 1000 * 1000⟩
  let ret := os.sndtimeo
  let e1 := Event.setsockopt s SOL_SOCKET SO_SNDTIMEO timeo ret
  let ret := os.rcvtimeo
  let e2 := Event.setsockopt s SOL_SOCKET SO_RCVTIMEO timeo ret
  ⟨ret, [e1, e2]⟩

/-- Lines 118-129: `setSocketBlocking`, POSIX branch. -/
def setSocketBlocking (os : FcntlResults) (s : Int) (blocking : Bool) : Run :=
  let flags := os.getfl
  if flags = -1 then
    ⟨-1, [Event.fcntl_getfl s flags]⟩
  else
    let arg := if blocking then bitAnd flags (bitNot O_NONBLOCK) else bitOr flags O_NONBLOCK
    ⟨os.setfl, [Event.fcntl_getfl s flags, Event.fcntl_setfl s arg os.setfl]⟩

/-- `FD_SETSIZE` of `<sys/select.h>`: the number of descriptors an `fd_set`
holds. -/
def FD_SETSIZE : Int := 1024

/-- `FD_ZERO(&set)`: the empty descriptor set. -/
def FD_ZERO : List Int := []

/-- `FD_SET(fd, &set)`: for `0 ≤ fd < FD_SETSIZE`, the set with `fd` added.
For any other `fd` the macro writes outside the `fd_set` object, which is
undefined behaviour (in `connect_adv` the set is a local, and the stray write
can land in the neighbouring local `tm`): `none`. -/
def FD_SET (fd : Int) (set : List Int) : Option (List Int) :=
  if 0 ≤ fd ∧ fd < FD_SETSIZE then some (fd :: set) else none

/-- Lines 141-159 of `connect_adv`: the connect attempt between the two mode
switches; the value assigned to `ret` and the calls made. After a stray
`FD_SET` write (line 146) neither `set` nor `tm` is determined by the source,
and `select` is recorded with undetermined arguments. The local `error` is
initialised to 1 (line 134) and overwritten by the kernel with `SO_ERROR` only
when `getsockopt` succeeds (line 149). -/
def connectAttempt (env : Env) (os : ConnectResults) (sockfd : Int) (addr : sockaddr)
    (addrsize : Int) : Run :=
  let c := Event.connect sockfd addr addrsize os.connect
  if os.connect = -1 then
    let tm : timeval :=
      ⟨Int.tdiv env.connect_timeout 1000, Int.tmod env.connect_timeout 1000 * 1000⟩
    let p :=
      match FD_SET sockfd FD_ZERO with
      | some set => Event.select (sockfd + 1) (some set) (some tm) os.select
      | none => Event.select (sockfd + 1) none none os.select
    if os.select > 0 then
      let g := Event.getsockopt sockfd SOL_SOCKET SO_ERROR os.getsockopt
      let error := if os.getsockopt = 0 then os.so_error else 1
      if error = 0 then ⟨0, [c, p, g]⟩ else ⟨1, [c, p, g]⟩
    else
      ⟨1, [c, p]⟩
  else
    ⟨0, [c]⟩

/-- Lines 131-164: `connect_adv`. -/
def connect_adv (env : Env) (os : ConnectResults) (sockfd : Int) (addr : sockaddr)
    (addrsize : Int) : Run :=
  let nb := setSocketBlocking os.nonblock sockfd false
  if nb.ret = -1 then
    ⟨-1, nb.trace⟩
  else
    let att := connectAttempt env os sockfd addr addrsize
    let rb := setSocketBlocking os.restore sockfd true
    if rb.ret = -1 then
      ⟨-1, nb.trace ++ att.trace ++ rb.trace⟩
    else
      ⟨att.ret, nb.trace ++ att.trace ++ rb.trace⟩

/-- The C library `htons` on a `uint16_t` value: the identity on a big-endian
host, the exchange of the two bytes on a little-endian host. -/
def htons (bigEndian : Bool) (hostshort : Int) : Int :=
  if bigEndian then hostshort else hostshort % 256 * 256 + hostshort / 256

/-- The two bytes a `uint16_t` value occupies in memory, lowest address first. -/
def bytesInMemory (bigEndian : Bool) (v : Int) : Int × Int :=
  if bigEndian then (v / 256, v % 256) else (v % 256, v / 256)

/-- Lines 166-186: `startConnect`. `htons` takes a `uint16_t`, so the `short`
produced by the cast is converted once more. `sizeof(sockaddr_in)` is 16 and
`sizeof(sockaddr_in6)` is 28. -/
def startConnect (env : Env) (os : ConnectResults) (sHost : Int) (addr : String)
    (port : Int) : Run :=
  if env.isIPv4 addr then
    let servAddr : sockaddr :=
      ⟨AF_INET, htons env.bigEndian (toUShort (toShort port)), env.inet_pton AF_INET addr⟩
    connect_adv env os sHost servAddr 16
  else if env.isIPv6 addr then
    let servAddr6 : sockaddr :=
      ⟨AF_INET6, htons env.bigEndian (toUShort (toShort port)), env.inet_pton AF_INET6 addr⟩
    connect_adv env os sHost servAddr6 28
  else
    ⟨-1, []⟩

/-- Lines 188-191: `send_simple`. `data.size()` is a `size_t` and is converted
to the `int` parameter `len` of `Send`. -/
def send_simple (sendResult : Int) (sHost : Int) (data : Bytes) : Run :=
  Send sendResult sHost data (toInt data.length) 0

/-- Lines 193-216: `simpleSend`, POSIX branch. `retVal` is an `unsigned int`;
in `retVal == data.size()` it is widened to `size_t` without change of value.
`closesocket` is the POSIX `close`. -/
def simpleSend (env : Env) (os : SendResults) (addr : String) (port : Int)
    (data : Bytes) : Run :=
  let sHost := os.socket
  let e0 := [Event.socket (getNetworkType env addr) SOCK_STREAM IPPROTO_IP sHost]
  if sHost = INVALID_SOCKET then
    ⟨SOCKET_ERROR, e0⟩
  else
    let c := startConnect env os.conn sHost addr port
    if c.ret ≠ 0 then
      ⟨SOCKET_ERROR, e0 ++ c.trace⟩
    else
      let t := setTimeout os.timeo sHost 3000
      let s := send_simple os.send sHost data
      let retVal := toUInt s.ret
      if retVal = (data.length : Int) then
        ⟨0, e0 ++ c.trace ++ t.trace ++ s.trace ++ [Event.close sHost]⟩
      else
        ⟨SOCKET_ERROR, e0 ++ c.trace ++ t.trace ++ s.trace ++ [Event.close sHost]⟩

/-- Lines 218-236: `sockaddrToIPAddr`. `inet_ntop af bytes` is the
NUL-terminated text found in the zero-initialised buffer `cAddr` after the
call (empty when the call writes nothing); for any other family the buffer is
left as initialised. -/
def sockaddrToIPAddr (inet_ntop : Int → List Nat → String) (addr : sockaddr) : String :=
  if addr.sa_family = AF_INET then inet_ntop AF_INET addr.addr
  else if addr.sa_family = AF_INET6 then inet_ntop AF_INET6 addr.addr
  else ""

/-- What `getaddrinfo` produced: its return value and the records of the list
it stored through `retAddrInfo`, in `ai_next` order (`ai_addr` of each). -/
structure ResolverResults where
  retVal : Int
  records : List sockaddr
deriving DecidableEq

/-- Lines 248-253 of `hostnameToIPAddr`: the `for` loop over the record list;
the second argument is the current value of `retstr`. -/
def hostnameLoop (inet_ntop : Int → List Nat → String) : List sockaddr → String → String
  | [], retstr => retstr
  | cur :: next, _ =>
    let retstr := sockaddrToIPAddr inet_ntop cur
    if retstr ≠ "" then retstr else hostnameLoop inet_ntop next retstr

/-- Lines 238-255: `hostnameToIPAddr`; `res` is the outcome of the
`getaddrinfo` call for `host`. -/
def hostnameToIPAddr (inet_ntop : Int → List Nat → String) (res : ResolverResults) : String :=
  if res.retVal ≠ 0 then ""
  else hostnameLoop inet_ntop res.records ""

/-! ## The address classifiers, from the spec

`isIPv4` and `isIPv6` are declared in `misc.h`; their code is not in
`src/ship`. The theorems below hold for every pair of classifiers (`Env`); the
definitions here give one concrete `Env` on which the functions can be run. -/

/-- Modelled from the spec: the code of the classifiers is missing; the fields
of a character list separated by `sep` (always at least one). -/
def splitOnChar (sep : Char) : List Char → List (List Char)
  | [] => [[]]
  | c :: cs =>
    match splitOnChar sep cs with
    | [] => [[]]
    | f :: fs => if c = sep then [] :: f :: fs else (c :: f) :: fs

/-- Modelled from the spec: the code of the classifiers is missing; the value
of a hexadecimal digit. -/
def hexDigit (c : Char) : Option Nat :=
  if 48 ≤ c.toNat ∧ c.toNat ≤ 57 then some (c.toNat - 48)
  else if 97 ≤ c.toNat ∧ c.toNat ≤ 102 then some (c.toNat - 87)
  else if 65 ≤ c.toNat ∧ c.toNat ≤ 70 then some (c.toNat - 55)
  else none

/-- Modelled from the spec: the code of the classifiers is missing; the value
of a digit string in the given base, most significant first, `acc` being the
value read so far. -/
def readDigits (base : Nat) : List Char → Nat → Option Nat
  | [], acc => some acc
  | c :: cs, acc =>
    match hexDigit c with
    | some d => if d < base then readDigits base cs (acc * base + d) else none
    | none => none

/-- Modelled from the spec: the code of `isIPv4` is missing; one decimal octet
as the platform's `inet_pton` reads it: one to three decimal digits of value at
most 255, with no leading zero before another digit. -/
def parseOctet (cs : List Char) : Option Nat :=
  if 1 ≤ cs.length ∧ cs.length ≤ 3 ∧ ¬ (2 ≤ cs.length ∧ cs.head? = some '0') then
    match readDigits 10 cs 0 with
    | some v => if v ≤ 255 then some v else none
    | none => none
  else none

/-- Modelled from the spec: the code of the classifiers is missing; every field
parsed, or `none` when one field does not parse. -/
def parseAll (f : List Char → Option (List Nat)) : List (List Char) → Option (List Nat)
  | [] => some []
  | x :: xs =>
    match f x, parseAll f xs with
    | some a, some b => some (a ++ b)
    | _, _ => none

/-- Modelled from the spec: the four bytes of a dotted-quad IPv4 literal,
"four decimal octets 0-255, separated by `.`, no leading/trailing whitespace,
no embedded port"; `none` for any other text. The code of `isIPv4` is missing;
the spec lets an implementation delegate to the platform's address-parse
primitive, and the texts accepted here are those glibc's `inet_pton` accepts
for `AF_INET`. -/
def parseIPv4 (cs : List Char) : Option (List Nat) :=
  let fields := splitOnChar '.' cs
  if fields.length = 4 then parseAll (fun f => (parseOctet f).map (fun v => [v])) fields
  else none

/-- Modelled from the spec: the code of `isIPv6` is missing; one
colon-separated group, one to four hexadecimal digits, as two bytes. -/
def parseGroup (cs : List Char) : Option (List Nat) :=
  if 1 ≤ cs.length ∧ cs.length ≤ 4 then
    (readDigits 16 cs 0).map (fun v => [v / 256, v % 256])
  else none

/-- Modelled from the spec: the code of `isIPv6` is missing; the last group of
an IPv6 literal, a hexadecimal group or an embedded IPv4 tail. -/
def parseTail (cs : List Char) : Option (List Nat) :=
  match parseGroup cs with
  | some b => some b
  | none => parseIPv4 cs

/-- Modelled from the spec: the code of `isIPv6` is missing; a possibly empty
`:`-separated run of groups, an IPv4 tail being accepted in the last position
when `tail` is set. -/
def parseGroups (tail : Bool) (cs : List Char) : Option (List Nat) :=
  if cs = [] then some []
  else
    let fields := splitOnChar ':' cs
    match parseAll parseGroup fields.dropLast, fields.getLast? with
    | some a, some l =>
      (if tail then parseTail l else parseGroup l).map (fun b => a ++ b)
    | _, _ => none

/-- Modelled from the spec: the code of `isIPv6` is missing; the text before
and after the first `::`, when there is one. -/
def splitDoubleColon : List Char → Option (List Char × List Char)
  | [] => none
  | [_] => none
  | c :: d :: cs =>
    if c = ':' ∧ d = ':' then some ([], cs)
    else (splitDoubleColon (d :: cs)).map (fun p => (c :: p.1, p.2))

/-- Modelled from the spec: the sixteen bytes of an IPv6 literal, "a
well-formed IPv6 textual representation per the standard grammar, including
`::` compression and embedded IPv4 tail forms"; `none` for any other text.
The code of `isIPv6` is missing; the texts accepted here are those glibc's
`inet_pton` accepts for `AF_INET6` (a `::` stands for at least one group). -/
def parseIPv6 (cs : List Char) : Option (List Nat) :=
  match splitDoubleColon cs with
  | none =>
    match parseGroups true cs with
    | some b => if b.length = 16 then some b else none
    | none => none
  | some (l, r) =>
    match parseGroups false l, parseGroups true r with
    | some a, some b =>
      if a.length + b.length ≤ 14 then
        some (a ++ List.replicate (16 - (a.length + b.length)) 0 ++ b)
      else none
    | _, _ => none

/-- Modelled from the spec: `is_ipv4(s)` of section 4.1; the code of `isIPv4`
(declared at `misc.h` line 74) is missing. -/
def isIPv4 (address : String) : Bool := (parseIPv4 address.toList).isSome

/-- Modelled from the spec: `is_ipv6(s)` of section 4.1; the code of `isIPv6`
(declared at `misc.h` line 75) is missing. -/
def isIPv6 (address : String) : Bool := (parseIPv6 address.toList).isSome

/-- The address bytes found in the `sockaddr` after the `inet_pton` call of
lines 175 and 182 (glibc): the parsed bytes, or the zero bytes the
zero-initialised `sockaddr` already holds when `inet_pton` rejects the text,
as it does for an octet with a leading zero. -/
def inet_pton (af : Int) (src : String) : List Nat :=
  if af = AF_INET then (parseIPv4 src.toList).getD (List.replicate 4 0)
  else (parseIPv6 src.toList).getD (List.replicate 16 0)

/-- A little-endian POSIX host with the default `connect_timeout` of line 16. -/
def posixEnv : Env := ⟨3000, isIPv4, isIPv6, inet_pton, false⟩

/-! ## Specification-side definitions and observers of a run -/

/-- The decision table of the spec, section 4.4 steps 1-6, in the spec's words:
`-1` when the switch to non-blocking mode fails or when restoring blocking
mode fails (overriding the earlier result); otherwise `0` when connect
succeeded immediately, or when the readiness poll returned a positive value and
the queried socket-level error is zero; otherwise `1`. `soError` is the value
the query delivered, `none` when the query itself failed. -/
def connectWithTimeoutSpec (nonblockFailed connectedAtOnce : Bool) (poll : Int)
    (soError : Option Int) (restoreFailed : Bool) : Int :=
  if nonblockFailed then -1
  else if restoreFailed then -1
  else if connectedAtOnce then 0
  else if poll > 0 ∧ soError = some 0 then 0
  else 1

/-- The resolver of the spec, section 4.2, in the spec's words: the empty
string when the resolver fails; otherwise the first non-empty rendering in
record order, or the empty string when no record renders to a non-empty
string. -/
def resolveFirstSpec (render : sockaddr → String) (failed : Bool)
    (records : List sockaddr) : String :=
  if failed then ""
  else ((records.map render).find? (fun t => decide (t ≠ ""))).getD ""

/-- The kernel's side of `fcntl(fd, F_SETFL, arg)`: the file-status flags of
descriptor `fd` after a sequence of system calls, starting from `flags`. A
write that succeeded (did not return `-1`) stores its argument, any other call
leaves the flags as they are. -/
def flagsAfter (fd : Int) (flags : Int) : List Event → Int
  | [] => flags
  | Event.fcntl_setfl fd1 arg r :: es =>
    if fd1 = fd ∧ r ≠ -1 then flagsAfter fd arg es else flagsAfter fd flags es
  | _ :: es => flagsAfter fd flags es

/-- Whether a system call is a socket-creation attempt. -/
def Event.isSocket : Event → Bool
  | Event.socket _ _ _ _ => true
  | _ => false

/-- Whether a system call is a `connect`. -/
def Event.isConnect : Event → Bool
  | Event.connect _ _ _ _ => true
  | _ => false

/-- How many times descriptor `fd` is closed in a trace. -/
def closeCount (fd : Int) (trace : List Event) : Nat := trace.count (Event.close fd)

/-- How many socket-creation attempts a trace holds. -/
def socketCalls (trace : List Event) : Nat := trace.countP Event.isSocket

/-- How many `connect` calls a trace holds. -/
def connectCalls (trace : List Event) : Nat := trace.countP Event.isConnect

/-! ## Concrete system-call results used at concrete inputs -/

/-- Both `fcntl` calls succeed on a descriptor whose flags read `O_RDWR` (2). -/
def fcntlOk : FcntlResults := ⟨2, 0⟩

/-- Both `fcntl` calls succeed on a descriptor whose flags read
`O_RDWR | O_NONBLOCK` (2050). -/
def fcntlOkNonblock : FcntlResults := ⟨2050, 0⟩

/-- A connection that is established within the timeout: `connect` returns
`-1` (in progress), `select` reports one ready descriptor, `SO_ERROR` is 0. -/
def connectEstablished : ConnectResults := ⟨fcntlOk, -1, 1, 0, 0, fcntlOkNonblock⟩

/-- A connection that is refused: `connect` returns `-1`, `select` reports the
descriptor ready, `SO_ERROR` is `ECONNREFUSED` (111). -/
def connectRefused : ConnectResults := ⟨fcntlOk, -1, 1, 0, 111, fcntlOkNonblock⟩

/-- Socket 3 is created, the connection is refused. -/
def sendRefused : SendResults := ⟨3, connectRefused, ⟨0, 0⟩, 1⟩

/-- Socket 3 is created and connected, both timeouts are applied, `send`
fails with `-1`. -/
def sendFails : SendResults := ⟨3, connectEstablished, ⟨0, 0⟩, -1⟩

/-- Socket creation fails: `socket` returns `INVALID_SOCKET`. -/
def socketRejected : SendResults := ⟨-1, connectEstablished, ⟨0, 0⟩, 1⟩

/-- The send-timeout `setsockopt` fails, the receive-timeout one succeeds. -/
def sndtimeoFails : TimeoutResults := ⟨-1, 0⟩

/-! ## Bit-level facts about the `int` operators -/

theorem toUInt_toNat_lt (x : Int) : (toUInt x).toNat < 2 ^ 32 := by
  unfold toUInt; omega

theorem toUInt_toInt_toNat (n : Nat) : (toUInt (toInt (n : Int))).toNat = n % 2 ^ 32 := by
  unfold toUInt toInt; split <;> omega

theorem intBit_of_ge (x : Int) (i : Nat) (h : 32 ≤ i) : intBit x i = false := by
  unfold intBit
  apply Nat.testBit_lt_two_pow
  calc (toUInt x).toNat < 2 ^ 32 := toUInt_toNat_lt x
    _ ≤ 2 ^ i := Nat.pow_le_pow_right (by decide) h

theorem intBit_toInt (n i : Nat) :
    intBit (toInt (n : Int)) i = (decide (i < 32) && n.testBit i) := by
  unfold intBit
  rw [toUInt_toInt_toNat, Nat.testBit_mod_two_pow]

theorem intBit_bitAnd (a b : Int) (i : Nat) :
    intBit (bitAnd a b) i = (intBit a i && intBit b i) := by
  unfold bitAnd
  rw [intBit_toInt]
  have h : ∀ m n : Nat, Nat.land m n = m &&& n := fun _ _ => rfl
  rw [h, Nat.testBit_land]
  by_cases hi : i < 32
  · simp [hi, intBit]
  · simp [hi, intBit_of_ge a i (by omega)]

theorem intBit_bitOr (a b : Int) (i : Nat) :
    intBit (bitOr a b) i = (intBit a i || intBit b i) := by
  unfold bitOr
  rw [intBit_toInt]
  have h : ∀ m n : Nat, Nat.lor m n = m ||| n := fun _ _ => rfl
  rw [h, Nat.testBit_lor]
  by_cases hi : i < 32
  · simp [hi, intBit]
  · simp [hi, intBit_of_ge a i (by omega), intBit_of_ge b i (by omega)]

theorem intBit_bitNot (a : Int) (i : Nat) :
    intBit (bitNot a) i = (decide (i < 32) && !intBit a i) := by
  unfold bitNot
  rw [intBit_toInt]
  have h : ∀ m n : Nat, Nat.xor m n = m ^^^ n := fun _ _ => rfl
  have h2 : (4294967295 : Nat) = 2 ^ 32 - 1 := by norm_num
  rw [h, Nat.testBit_xor, h2, Nat.testBit_two_pow_sub_one]
  by_cases hi : i < 32
  · simp [hi, intBit]
  · simp [hi]

theorem intBit_O_NONBLOCK (i : Nat) : intBit O_NONBLOCK i = decide (i = 11) := by
  have h : (toUInt O_NONBLOCK).toNat = 2 ^ 11 := by decide
  unfold intBit
  rw [h, Nat.testBit_two_pow]
  by_cases hi : i = 11
  · simp [hi]
  · have : ¬ (11 = i) := fun e => hi e.symm
    simp [hi, this]

/-- Clearing: `flags & ~O_NONBLOCK` has bit 11 clear and every other bit as in
`flags`. -/
theorem intBit_clear_nonblock (f : Int) (i : Nat) :
    intBit (bitAnd f (bitNot O_NONBLOCK)) i = (intBit f i && !decide (i = 11)) := by
  rw [intBit_bitAnd, intBit_bitNot, intBit_O_NONBLOCK]
  by_cases hi : i < 32
  · simp [hi]
  · simp [hi, intBit_of_ge f i (by omega)]

/-- Setting: `flags | O_NONBLOCK` has bit 11 set and every other bit as in
`flags`. -/
theorem intBit_set_nonblock (f : Int) (i : Nat) :
    intBit (bitOr f O_NONBLOCK) i = (intBit f i || decide (i = 11)) := by
  rw [intBit_bitOr, intBit_O_NONBLOCK]

/-! ## Claims -/

/-- C10: on the POSIX build, when the flags read by `F_GETFL` are `f` with
`f ≠ -1`, `setSocketBlocking s b` performs exactly the read and one
`F_SETFL` write and returns the result of that write; the flags written have
the `O_NONBLOCK` bit (bit 11) cleared when `b` is true and set when `b` is
false, and agree with `f` on every other bit. When the read returns `-1` the
function returns `-1` and the read is the only call made: nothing is written. -/
theorem setSocketBlocking_read_modify_write (os : FcntlResults) (s : Int) (b : Bool) :
    (os.getfl ≠ -1 →
      ∃ w, setSocketBlocking os s b =
            ⟨os.setfl, [Event.fcntl_getfl s os.getfl, Event.fcntl_setfl s w os.setfl]⟩ ∧
          intBit w 11 = !b ∧
          ∀ i, i ≠ 11 → intBit w i = intBit os.getfl i) ∧
    (os.getfl = -1 →
      setSocketBlocking os s b = ⟨-1, [Event.fcntl_getfl s (-1)]⟩) := by
  constructor
  · intro h
    cases b
    · refine ⟨bitOr os.getfl O_NONBLOCK, ?_, ?_, ?_⟩
      · simp [setSocketBlocking, h]
      · simp [intBit_set_nonblock]
      · intro i hi
        simp [intBit_set_nonblock, hi]
    · refine ⟨bitAnd os.getfl (bitNot O_NONBLOCK), ?_, ?_, ?_⟩
      · simp [setSocketBlocking, h]
      · simp [intBit_clear_nonblock]
      · intro i hi
        simp [intBit_clear_nonblock, hi]
  · intro h
    simp [setSocketBlocking, h]

/-! ### Shape of the runs of `connect_adv` -/

theorem setSocketBlocking_ret_ne (os : FcntlResults) (s : Int) (b : Bool)
    (h : (setSocketBlocking os s b).ret ≠ -1) :
    os.getfl ≠ -1 ∧ os.setfl ≠ -1 ∧
    setSocketBlocking os s b =
      ⟨os.setfl, [Event.fcntl_getfl s os.getfl,
        Event.fcntl_setfl s
          (if b then bitAnd os.getfl (bitNot O_NONBLOCK) else bitOr os.getfl O_NONBLOCK)
          os.setfl]⟩ := by
  by_cases hg : os.getfl = -1
  · simp [setSocketBlocking, hg] at h
  · simp [setSocketBlocking, hg] at h ⊢
    exact h

theorem connect_adv_trace (env : Env) (os : ConnectResults) (sockfd : Int)
    (addr : sockaddr) (addrsize : Int) :
    (connect_adv env os sockfd addr addrsize).trace =
        (setSocketBlocking os.nonblock sockfd false).trace ∨
    (connect_adv env os sockfd addr addrsize).trace =
        (setSocketBlocking os.nonblock sockfd false).trace ++
          (connectAttempt env os sockfd addr addrsize).trace ++
          (setSocketBlocking os.restore sockfd true).trace := by
  unfold connect_adv
  by_cases h1 : (setSocketBlocking os.nonblock sockfd false).ret = -1
  · simp [h1]
  · by_cases h2 : (setSocketBlocking os.restore sockfd true).ret = -1 <;> simp [h1, h2]

theorem flagsAfter_append (fd : Int) (xs ys : List Event) (flags : Int) :
    flagsAfter fd flags (xs ++ ys) = flagsAfter fd (flagsAfter fd flags xs) ys := by
  induction xs generalizing flags with
  | nil => rfl
  | cons e es ih =>
    rw [List.cons_append]
    cases e with
    | fcntl_setfl fd1 arg r =>
      simp only [flagsAfter]
      split <;> exact ih _
    | _ =>
      simp only [flagsAfter]
      exact ih _

/-! ### Shape of the connect attempt -/

theorem connectAttempt_ret (env : Env) (os : ConnectResults) (sockfd : Int)
    (addr : sockaddr) (addrsize : Int) :
    (connectAttempt env os sockfd addr addrsize).ret =
      if os.connect = -1 then
        if os.select > 0 ∧ os.getsockopt = 0 ∧ os.so_error = 0 then 0 else 1
      else 0 := by
  unfold connectAttempt
  by_cases h3 : os.connect = -1
  · by_cases h4 : os.select > 0
    · by_cases h5 : os.getsockopt = 0
      · by_cases h6 : os.so_error = 0 <;> simp [h3, h4, h5, h6]
      · simp [h3, h4, h5]
    · simp [h3, h4]
  · simp [h3]

theorem connectAttempt_trace_shape (env : Env) (os : ConnectResults) (sockfd : Int)
    (addr : sockaddr) (addrsize : Int) :
    ∃ w tmo, (connectAttempt env os sockfd addr addrsize).trace =
      Event.connect sockfd addr addrsize os.connect ::
        (if os.connect = -1 then
          Event.select (sockfd + 1) w tmo os.select ::
            (if os.select > 0 then
              [Event.getsockopt sockfd SOL_SOCKET SO_ERROR os.getsockopt]
            else [])
        else []) ∧
      (0 ≤ sockfd → sockfd < FD_SETSIZE →
        w = some [sockfd] ∧
        tmo = some ⟨Int.tdiv env.connect_timeout 1000,
          Int.tmod env.connect_timeout 1000 * 1000⟩) := by
  cases hfd : FD_SET sockfd FD_ZERO with
  | none =>
    refine ⟨none, none, ?_, ?_⟩
    · unfold connectAttempt
      by_cases h3 : os.connect = -1
      · by_cases h4 : os.select > 0
        · by_cases h5 : (if os.getsockopt = 0 then os.so_error else 1) = 0 <;>
            simp [h3, h4, h5, hfd]
        · simp [h3, h4, hfd]
      · simp [h3]
    · intro h0 h1
      simp [FD_SET, h0, h1] at hfd
  | some set =>
    refine ⟨some set, some ⟨Int.tdiv env.connect_timeout 1000,
      Int.tmod env.connect_timeout 1000 * 1000⟩, ?_, ?_⟩
    · unfold connectAttempt
      by_cases h3 : os.connect = -1
      · by_cases h4 : os.select > 0
        · by_cases h5 : (if os.getsockopt = 0 then os.so_error else 1) = 0 <;>
            simp [h3, h4, h5, hfd]
        · simp [h3, h4, hfd]
      · simp [h3]
    · intro h0 h1
      simp [FD_SET, FD_ZERO, h0, h1] at hfd
      simp [hfd]

theorem connectAttempt_trace (env : Env) (os : ConnectResults) (sockfd : Int)
    (addr : sockaddr) (addrsize : Int) (h0 : 0 ≤ sockfd) (h1 : sockfd < FD_SETSIZE) :
    (connectAttempt env os sockfd addr addrsize).trace =
      Event.connect sockfd addr addrsize os.connect ::
        (if os.connect = -1 then
          Event.select (sockfd + 1) (some [sockfd])
            (some ⟨Int.tdiv env.connect_timeout 1000,
              Int.tmod env.connect_timeout 1000 * 1000⟩) os.select ::
            (if os.select > 0 then
              [Event.getsockopt sockfd SOL_SOCKET SO_ERROR os.getsockopt]
            else [])
        else []) := by
  obtain ⟨w, tmo, ht, hb⟩ := connectAttempt_trace_shape env os sockfd addr addrsize
  obtain ⟨hw, htm⟩ := hb h0 h1
  rw [ht, hw, htm]

/-- C2: for a descriptor in the range of an `fd_set`, `connect_adv` returns
what the decision table of the spec prescribes, read on the results of the
system calls it makes: `-1` if `setSocketBlocking(sockfd, false)` fails or
`setSocketBlocking(sockfd, true)` fails, otherwise `0` if `connect` did not
return `-1`, or if `select` returned a positive value and `getsockopt`
succeeded and stored `SO_ERROR = 0`, otherwise `1`. The result is one of `0`,
`1`, `-1`. When the switch to non-blocking mode fails nothing else is called,
in particular no `connect`. Otherwise the calls made are those of the mode
switch, then `connect` on `sockfd` and `addr`, then, only if it returned `-1`,
`select` on the write set `{sockfd}`, then, only if that returned a positive
value, the `SO_ERROR` query, then those of the restoring mode switch. -/
theorem connect_adv_result (env : Env) (os : ConnectResults) (sockfd : Int)
    (addr : sockaddr) (addrsize : Int) (hlo : 0 ≤ sockfd) (hhi : sockfd < FD_SETSIZE) :
    (connect_adv env os sockfd addr addrsize).ret =
        connectWithTimeoutSpec
          (decide ((setSocketBlocking os.nonblock sockfd false).ret = -1))
          (decide (os.connect ≠ -1)) os.select
          (if os.getsockopt = 0 then some os.so_error else none)
          (decide ((setSocketBlocking os.restore sockfd true).ret = -1)) ∧
    ((connect_adv env os sockfd addr addrsize).ret = 0 ∨
      (connect_adv env os sockfd addr addrsize).ret = 1 ∨
      (connect_adv env os sockfd addr addrsize).ret = -1) ∧
    ((setSocketBlocking os.nonblock sockfd false).ret = -1 →
      (connect_adv env os sockfd addr addrsize).trace =
        (setSocketBlocking os.nonblock sockfd false).trace ∧
      connectCalls (connect_adv env os sockfd addr addrsize).trace = 0) ∧
    ((setSocketBlocking os.nonblock sockfd false).ret ≠ -1 →
      (connect_adv env os sockfd addr addrsize).trace =
        (setSocketBlocking os.nonblock sockfd false).trace ++
          Event.connect sockfd addr addrsize os.connect ::
            (if os.connect = -1 then
              Event.select (sockfd + 1) (some [sockfd])
                (some ⟨Int.tdiv env.connect_timeout 1000,
                  Int.tmod env.connect_timeout 1000 * 1000⟩) os.select ::
                (if os.select > 0 then
                  [Event.getsockopt sockfd SOL_SOCKET SO_ERROR os.getsockopt]
                else [])
            else []) ++
          (setSocketBlocking os.restore sockfd true).trace) ∧
    ((setSocketBlocking os.nonblock sockfd false).ret ≠ -1 →
      (setSocketBlocking os.restore sockfd true).ret ≠ -1 →
      os.connect = -1 → os.select > 0 →
      ((connect_adv env os sockfd addr addrsize).ret = 0 ↔
        os.getsockopt = 0 ∧ os.so_error = 0)) := by
  have hret : (connect_adv env os sockfd addr addrsize).ret =
      if (setSocketBlocking os.nonblock sockfd false).ret = -1 then -1
      else if (setSocketBlocking os.restore sockfd true).ret = -1 then -1
      else (connectAttempt env os sockfd addr addrsize).ret := by
    unfold connect_adv
    by_cases h1 : (setSocketBlocking os.nonblock sockfd false).ret = -1
    · simp [h1]
    · by_cases h2 : (setSocketBlocking os.restore sockfd true).ret = -1 <;> simp [h1, h2]
  refine ⟨?_, ?_, ?_, ?_, ?_⟩
  · rw [hret, connectAttempt_ret]
    unfold connectWithTimeoutSpec
    by_cases h1 : (setSocketBlocking os.nonblock sockfd false).ret = -1
    · simp [h1]
    · by_cases h2 : (setSocketBlocking os.restore sockfd true).ret = -1
      · simp [h1, h2]
      · by_cases h3 : os.connect = -1
        · by_cases h4 : os.select > 0
          · by_cases h5 : os.getsockopt = 0
            · by_cases h6 : os.so_error = 0 <;> simp [h1, h2, h3, h4, h5, h6]
            · simp [h1, h2, h3, h4, h5]
          · simp [h1, h2, h3, h4]
        · simp [h1, h2, h3]
  · rw [hret, connectAttempt_ret]
    split_ifs <;> simp
  · intro h1
    have hrun : connect_adv env os sockfd addr addrsize =
        ⟨-1, (setSocketBlocking os.nonblock sockfd false).trace⟩ := by
      simp [connect_adv, h1]
    rw [hrun]
    refine ⟨rfl, ?_⟩
    by_cases hg : os.nonblock.getfl = -1
    · simp [setSocketBlocking, hg, connectCalls, Event.isConnect]
    · simp [setSocketBlocking, hg, connectCalls, Event.isConnect]
  · intro h1
    have ht : (connect_adv env os sockfd addr addrsize).trace =
        (setSocketBlocking os.nonblock sockfd false).trace ++
          (connectAttempt env os sockfd addr addrsize).trace ++
          (setSocketBlocking os.restore sockfd true).trace := by
      unfold connect_adv
      by_cases h2 : (setSocketBlocking os.restore sockfd true).ret = -1 <;> simp [h1, h2]
    rw [ht, connectAttempt_trace env os sockfd addr addrsize hlo hhi]
  · intro h1 h2 h3 h4
    rw [hret, connectAttempt_ret]
    by_cases h5 : os.getsockopt = 0
    · by_cases h6 : os.so_error = 0 <;> simp [h1, h2, h3, h4, h5, h6]
    · simp [h1, h2, h3, h4, h5]

/-- Witness for C2: descriptor 3, a refused connection (`SO_ERROR` is 111)
gives 1, an established one (`SO_ERROR` is 0) gives 0. -/
theorem connect_adv_result_witness :
    (connect_adv posixEnv connectRefused 3 ⟨AF_INET, 1792, [127, 0, 0, 1]⟩ 16).ret =
      connectWithTimeoutSpec false false 1 (some 111) false ∧
    connectWithTimeoutSpec false false 1 (some 111) false = 1 ∧
    ((connect_adv posixEnv connectEstablished 3 ⟨AF_INET, 1792, [127, 0, 0, 1]⟩ 16).ret = 0 ↔
      connectEstablished.getsockopt = 0 ∧ connectEstablished.so_error = 0) :=
  ⟨(connect_adv_result posixEnv connectRefused 3 ⟨AF_INET, 1792, [127, 0, 0, 1]⟩ 16
      (by decide) (by decide)).1,
   by decide,
   (connect_adv_result posixEnv connectEstablished 3 ⟨AF_INET, 1792, [127, 0, 0, 1]⟩ 16
      (by decide) (by decide)).2.2.2.2 (by decide) (by decide) (by decide) (by decide)⟩

/-- C5: whenever `connect_adv` returns 0, the calls it made end with the two
calls of a successful `setSocketBlocking(sockfd, true)`, the last one being the
`F_SETFL` write of flags with the `O_NONBLOCK` bit (bit 11) clear; in the
kernel's view the descriptor then has `O_NONBLOCK` clear, whatever its flags
were before the call. -/
theorem connect_adv_zero_blocking (env : Env) (os : ConnectResults) (sockfd : Int)
    (addr : sockaddr) (addrsize : Int)
    (h : (connect_adv env os sockfd addr addrsize).ret = 0) :
    (setSocketBlocking os.restore sockfd true).ret ≠ -1 ∧
    (∃ pre, (connect_adv env os sockfd addr addrsize).trace =
        pre ++ (setSocketBlocking os.restore sockfd true).trace) ∧
    (∃ pre, (connect_adv env os sockfd addr addrsize).trace =
        pre ++ [Event.fcntl_setfl sockfd (bitAnd os.restore.getfl (bitNot O_NONBLOCK))
                  os.restore.setfl] ∧ os.restore.setfl ≠ -1) ∧
    intBit (bitAnd os.restore.getfl (bitNot O_NONBLOCK)) 11 = false ∧
    ∀ init, intBit (flagsAfter sockfd init
        (connect_adv env os sockfd addr addrsize).trace) 11 = false := by
  have h1 : (setSocketBlocking os.nonblock sockfd false).ret ≠ -1 := by
    intro hc
    simp [connect_adv, hc] at h
  have h2 : (setSocketBlocking os.restore sockfd true).ret ≠ -1 := by
    intro hc
    simp [connect_adv, h1, hc] at h
  obtain ⟨_, hs, hrun⟩ := setSocketBlocking_ret_ne os.restore sockfd true h2
  have htrace : (connect_adv env os sockfd addr addrsize).trace =
      ((setSocketBlocking os.nonblock sockfd false).trace ++
        (connectAttempt env os sockfd addr addrsize).trace) ++
        (setSocketBlocking os.restore sockfd true).trace := by
    simp [connect_adv, h1, h2]
  have hbit : intBit (bitAnd os.restore.getfl (bitNot O_NONBLOCK)) 11 = false := by
    simp [intBit_clear_nonblock]
  refine ⟨h2, ⟨_, htrace⟩, ?_, hbit, ?_⟩
  · refine ⟨((setSocketBlocking os.nonblock sockfd false).trace ++
        (connectAttempt env os sockfd addr addrsize).trace) ++
        [Event.fcntl_getfl sockfd os.restore.getfl], ?_, hs⟩
    rw [htrace, hrun]
    simp
  · intro init
    rw [htrace, flagsAfter_append, hrun]
    simp [flagsAfter, hs, hbit]

/-- Witness for C5: an established connection on descriptor 3. -/
theorem connect_adv_zero_blocking_witness :
    (connect_adv posixEnv connectEstablished 3 ⟨AF_INET, 1792, [127, 0, 0, 1]⟩ 16).ret = 0 ∧
    intBit (flagsAfter 3 2
      (connect_adv posixEnv connectEstablished 3 ⟨AF_INET, 1792, [127, 0, 0, 1]⟩ 16).trace)
      11 = false :=
  ⟨by decide,
   (connect_adv_zero_blocking posixEnv connectEstablished 3 ⟨AF_INET, 1792, [127, 0, 0, 1]⟩ 16
      (by decide)).2.2.2.2 2⟩

/-! ### Timeout split -/

theorem connectAttempt_select_mem (env : Env) (os : ConnectResults) (sockfd : Int)
    (addr : sockaddr) (addrsize nfds : Int) (w : Option (List Int)) (tm : Option timeval)
    (r : Int) (h0 : 0 ≤ sockfd) (h1 : sockfd < FD_SETSIZE)
    (h : Event.select nfds w tm r ∈ (connectAttempt env os sockfd addr addrsize).trace) :
    tm = some ⟨Int.tdiv env.connect_timeout 1000,
      Int.tmod env.connect_timeout 1000 * 1000⟩ := by
  rw [connectAttempt_trace env os sockfd addr addrsize h0 h1] at h
  by_cases h3 : os.connect = -1
  · by_cases h4 : os.select > 0
    · simp [h3, h4] at h
      exact h.2.2.1
    · simp [h3, h4] at h
      exact h.2.2.1
  · simp [h3] at h

theorem setSocketBlocking_select_not_mem (os : FcntlResults) (s : Int) (b : Bool)
    (nfds : Int) (w : Option (List Int)) (tm : Option timeval) (r : Int) :
    Event.select nfds w tm r ∉ (setSocketBlocking os s b).trace := by
  unfold setSocketBlocking
  by_cases hg : os.getfl = -1 <;> simp [hg]

theorem connect_adv_select_mem (env : Env) (os : ConnectResults) (sockfd : Int)
    (addr : sockaddr) (addrsize nfds : Int) (w : Option (List Int)) (tm : Option timeval)
    (r : Int) (h0 : 0 ≤ sockfd) (h1 : sockfd < FD_SETSIZE)
    (h : Event.select nfds w tm r ∈ (connect_adv env os sockfd addr addrsize).trace) :
    tm = some ⟨Int.tdiv env.connect_timeout 1000,
      Int.tmod env.connect_timeout 1000 * 1000⟩ := by
  rcases connect_adv_trace env os sockfd addr addrsize with ht | ht <;> rw [ht] at h
  · exact absurd h (setSocketBlocking_select_not_mem _ _ _ _ _ _ _)
  · simp only [List.mem_append] at h
    rcases h with (h | h) | h
    · exact absurd h (setSocketBlocking_select_not_mem _ _ _ _ _ _ _)
    · exact connectAttempt_select_mem _ _ _ _ _ _ _ _ _ h0 h1 h
    · exact absurd h (setSocketBlocking_select_not_mem _ _ _ _ _ _ _)

/-- C8: for every non-negative millisecond value `ms`, `setTimeout` passes to
both `setsockopt` calls the `timeval` with `tv_sec = ms / 1000` and
`tv_usec = (ms mod 1000) * 1000`, and `connect_adv`, on a descriptor in the
range of an `fd_set` (`0 ≤ sockfd < FD_SETSIZE`, where `FD_SET` stays inside
the set), passes the same split of `connect_timeout` to `select`; the split
satisfies `0 ≤ tv_usec < 1000000` and `tv_sec * 1000000 + tv_usec = ms * 1000`.
For 1500 ms the `timeval` is `(1, 500000)`. -/
theorem timeout_split (ms : Int) (h : 0 ≤ ms) :
    (∀ os s, (setTimeout os s ms).trace =
        [Event.setsockopt s SOL_SOCKET SO_SNDTIMEO ⟨ms / 1000, ms % 1000 * 1000⟩ os.sndtimeo,
         Event.setsockopt s SOL_SOCKET SO_RCVTIMEO ⟨ms / 1000, ms % 1000 * 1000⟩ os.rcvtimeo]) ∧
    (∀ env os sockfd addr addrsize nfds w tm r, env.connect_timeout = ms →
        0 ≤ sockfd → sockfd < FD_SETSIZE →
        Event.select nfds w tm r ∈ (connect_adv env os sockfd addr addrsize).trace →
        tm = some ⟨ms / 1000, ms % 1000 * 1000⟩) ∧
    (∀ env os sockfd addr addrsize, env.connect_timeout = ms →
        0 ≤ sockfd → sockfd < FD_SETSIZE →
        (setSocketBlocking os.nonblock sockfd false).ret ≠ -1 → os.connect = -1 →
        Event.select (sockfd + 1) (some [sockfd]) (some ⟨ms / 1000, ms % 1000 * 1000⟩)
          os.select ∈ (connect_adv env os sockfd addr addrsize).trace) ∧
    (0 ≤ ms % 1000 * 1000 ∧ ms % 1000 * 1000 < 1000000) ∧
    ms / 1000 * 1000000 + ms % 1000 * 1000 = ms * 1000 ∧
    (∀ os s, (setTimeout os s 1500).trace =
        [Event.setsockopt s SOL_SOCKET SO_SNDTIMEO ⟨1, 500000⟩ os.sndtimeo,
         Event.setsockopt s SOL_SOCKET SO_RCVTIMEO ⟨1, 500000⟩ os.rcvtimeo]) := by
  have hd : Int.tdiv ms 1000 = ms / 1000 := Int.tdiv_eq_ediv h (by decide)
  have hm : Int.tmod ms 1000 = ms % 1000 := Int.tmod_eq_emod h (by decide)
  refine ⟨?_, ?_, ?_, ⟨by omega, by omega⟩, by omega, ?_⟩
  · intro os s
    simp [setTimeout, hd, hm]
  · intro env os sockfd addr addrsize nfds w tm r hct h0 h1 hmem
    rw [connect_adv_select_mem env os sockfd addr addrsize nfds w tm r h0 h1 hmem, hct, hd, hm]
  · intro env os sockfd addr addrsize hct h0 h1 hnb hc
    have ht : (connect_adv env os sockfd addr addrsize).trace =
        (setSocketBlocking os.nonblock sockfd false).trace ++
          (connectAttempt env os sockfd addr addrsize).trace ++
          (setSocketBlocking os.restore sockfd true).trace := by
      unfold connect_adv
      by_cases h2 : (setSocketBlocking os.restore sockfd true).ret = -1 <;> simp [hnb, h2]
    rw [ht, connectAttempt_trace env os sockfd addr addrsize h0 h1, hct, hd, hm]
    simp [hc]
  · intro os s
    simp [setTimeout]
    decide

/-- Witness for C8: 1500 ms on descriptor 3. -/
theorem timeout_split_witness :
    (setTimeout ⟨0, 0⟩ 3 1500).trace =
      [Event.setsockopt 3 SOL_SOCKET SO_SNDTIMEO ⟨1, 500000⟩ 0,
       Event.setsockopt 3 SOL_SOCKET SO_RCVTIMEO ⟨1, 500000⟩ 0] ∧
    Event.select 4 (some [3]) (some ⟨1, 500000⟩) 1 ∈
      (connect_adv ⟨1500, isIPv4, isIPv6, inet_pton, false⟩ connectEstablished 3
        ⟨AF_INET, 1792, [127, 0, 0, 1]⟩ 16).trace :=
  ⟨(timeout_split 1500 (by decide)).1 ⟨0, 0⟩ 3,
   (timeout_split 1500 (by decide)).2.2.1 ⟨1500, isIPv4, isIPv6, inet_pton, false⟩
      connectEstablished 3 ⟨AF_INET, 1792, [127, 0, 0, 1]⟩ 16 rfl (by decide) (by decide)
      (by decide) (by decide)⟩

/-! ### Port byte order -/

theorem setSocketBlocking_connect_not_mem (os : FcntlResults) (s : Int) (b : Bool)
    (fd : Int) (sa : sockaddr) (sz r : Int) :
    Event.connect fd sa sz r ∉ (setSocketBlocking os s b).trace := by
  unfold setSocketBlocking
  by_cases hg : os.getfl = -1 <;> simp [hg]

theorem connectAttempt_connect_mem (env : Env) (os : ConnectResults) (sockfd : Int)
    (addr : sockaddr) (addrsize fd : Int) (sa : sockaddr) (sz r : Int)
    (h : Event.connect fd sa sz r ∈ (connectAttempt env os sockfd addr addrsize).trace) :
    sa = addr := by
  obtain ⟨w, tmo, ht, _⟩ := connectAttempt_trace_shape env os sockfd addr addrsize
  rw [ht] at h
  by_cases h3 : os.connect = -1
  · by_cases h4 : os.select > 0
    · simp [h3, h4] at h
      exact h.2.1
    · simp [h3, h4] at h
      exact h.2.1
  · simp [h3] at h
    exact h.2.1

theorem connect_adv_connect_mem (env : Env) (os : ConnectResults) (sockfd : Int)
    (addr : sockaddr) (addrsize fd : Int) (sa : sockaddr) (sz r : Int)
    (h : Event.connect fd sa sz r ∈ (connect_adv env os sockfd addr addrsize).trace) :
    sa = addr := by
  rcases connect_adv_trace env os sockfd addr addrsize with ht | ht <;> rw [ht] at h
  · exact absurd h (setSocketBlocking_connect_not_mem _ _ _ _ _ _ _)
  · simp only [List.mem_append] at h
    rcases h with (h | h) | h
    · exact absurd h (setSocketBlocking_connect_not_mem _ _ _ _ _ _ _)
    · exact connectAttempt_connect_mem _ _ _ _ _ _ _ _ _ h
    · exact absurd h (setSocketBlocking_connect_not_mem _ _ _ _ _ _ _)

theorem port_bytes (bigEndian : Bool) (p : Int) (h0 : 0 ≤ p) (h1 : p ≤ 65535) :
    bytesInMemory bigEndian (htons bigEndian (toUShort (toShort p))) = (p / 256, p % 256) := by
  have hp : toUShort (toShort p) = p := by
    unfold toUShort toShort
    split <;> omega
  rw [hp]
  cases bigEndian
  · simp only [bytesInMemory, htons, Bool.false_eq_true, if_false, Prod.mk.injEq]
    constructor <;> omega
  · simp [bytesInMemory, htons]

/-- C9: for every port `p` with `0 ≤ p ≤ 65535`, the port field that
`startConnect` computes as `htons((short)p)` occupies in memory the two bytes
`(p div 256, p mod 256)`, on either host byte order, and every `connect` that
`startConnect` issues carries a `sockaddr` whose port field is laid out so;
this includes `p ≥ 32768`, where the intermediate `short` is negative. -/
theorem startConnect_port_network_order (p : Int) (h0 : 0 ≤ p) (h1 : p ≤ 65535) :
    (∀ bigEndian,
      bytesInMemory bigEndian (htons bigEndian (toUShort (toShort p))) = (p / 256, p % 256)) ∧
    (∀ env os sHost addr fd sa sz r,
      Event.connect fd sa sz r ∈ (startConnect env os sHost addr p).trace →
      bytesInMemory env.bigEndian sa.port = (p / 256, p % 256)) ∧
    (32768 ≤ p → toShort p < 0) := by
  refine ⟨fun e => port_bytes e p h0 h1, ?_, ?_⟩
  · intro env os sHost addr fd sa sz r hmem
    unfold startConnect at hmem
    split_ifs at hmem
    · rw [connect_adv_connect_mem _ _ _ _ _ _ _ _ _ hmem]
      exact port_bytes _ p h0 h1
    · rw [connect_adv_connect_mem _ _ _ _ _ _ _ _ _ hmem]
      exact port_bytes _ p h0 h1
    · simp at hmem
  · intro h
    unfold toShort
    split <;> omega

/-- Witness for C9: port 40000 (`0x9C40`), whose cast to `short` is negative;
the connect issued for `127.0.0.1` carries the bytes `0x9C, 0x40`. -/
theorem startConnect_port_network_order_witness :
    toShort 40000 = -25536 ∧
    Event.connect 3 ⟨AF_INET, 16540, [127, 0, 0, 1]⟩ 16 (-1) ∈
      (startConnect posixEnv connectEstablished 3 "127.0.0.1" 40000).trace ∧
    bytesInMemory false 16540 = (156, 64) :=
  ⟨by decide, by decide,
   (startConnect_port_network_order 40000 (by decide) (by decide)).2.1 posixEnv
      connectEstablished 3 "127.0.0.1" 3 ⟨AF_INET, 16540, [127, 0, 0, 1]⟩ 16 (-1) (by decide)⟩

/-! ### Name resolution -/

theorem hostnameLoop_eq_find (inet_ntop : Int → List Nat → String) (rs : List sockaddr) :
    hostnameLoop inet_ntop rs "" =
      ((rs.map (sockaddrToIPAddr inet_ntop)).find? (fun t => decide (t ≠ ""))).getD "" := by
  induction rs with
  | nil => rfl
  | cons r rs ih =>
    by_cases h : sockaddrToIPAddr inet_ntop r = ""
    · simp only [hostnameLoop, h, ne_eq, not_true_eq_false, if_false, List.map_cons,
        List.find?_cons, decide_False]
      exact ih
    · simp [hostnameLoop, h, List.find?_cons]

theorem hostnameLoop_first (inet_ntop : Int → List Nat → String) (pre : List sockaddr)
    (r : sockaddr) (post : List sockaddr)
    (hpre : ∀ x ∈ pre, sockaddrToIPAddr inet_ntop x = "")
    (hr : sockaddrToIPAddr inet_ntop r ≠ "") :
    hostnameLoop inet_ntop (pre ++ r :: post) "" = sockaddrToIPAddr inet_ntop r := by
  induction pre with
  | nil => simp [hostnameLoop, hr]
  | cons x xs ih =>
    have hx : sockaddrToIPAddr inet_ntop x = "" := hpre x (List.mem_cons_self _ _)
    simp only [List.cons_append, hostnameLoop, hx, ne_eq, not_true_eq_false, if_false]
    exact ih (fun y hy => hpre y (List.mem_cons_of_mem _ hy))

theorem hostnameLoop_none (inet_ntop : Int → List Nat → String) (rs : List sockaddr)
    (h : ∀ x ∈ rs, sockaddrToIPAddr inet_ntop x = "") :
    hostnameLoop inet_ntop rs "" = "" := by
  induction rs with
  | nil => rfl
  | cons x xs ih =>
    have hx : sockaddrToIPAddr inet_ntop x = "" := h x (List.mem_cons_self _ _)
    simp only [hostnameLoop, hx, ne_eq, not_true_eq_false, if_false]
    exact ih (fun y hy => h y (List.mem_cons_of_mem _ hy))

/-- C7: `hostnameToIPAddr` computes the resolver of the spec: the empty string
when `getaddrinfo` fails; otherwise the rendering (`sockaddrToIPAddr`) of the
first record, in list order, whose rendering is non-empty; the empty string
when no record renders to a non-empty string, which covers the empty list and
records whose family is neither `AF_INET` nor `AF_INET6`. -/
theorem hostnameToIPAddr_first_renderable (inet_ntop : Int → List Nat → String)
    (res : ResolverResults) :
    hostnameToIPAddr inet_ntop res =
        resolveFirstSpec (sockaddrToIPAddr inet_ntop) (decide (res.retVal ≠ 0)) res.records ∧
    (res.retVal ≠ 0 → hostnameToIPAddr inet_ntop res = "") ∧
    (res.retVal = 0 → ∀ pre r post, res.records = pre ++ r :: post →
        (∀ x ∈ pre, sockaddrToIPAddr inet_ntop x = "") →
        sockaddrToIPAddr inet_ntop r ≠ "" →
        hostnameToIPAddr inet_ntop res = sockaddrToIPAddr inet_ntop r) ∧
    (res.retVal = 0 → (∀ x ∈ res.records, sockaddrToIPAddr inet_ntop x = "") →
        hostnameToIPAddr inet_ntop res = "") ∧
    (res.retVal = 0 → res.records = [] → hostnameToIPAddr inet_ntop res = "") ∧
    (∀ a : sockaddr, a.sa_family ≠ AF_INET → a.sa_family ≠ AF_INET6 →
        sockaddrToIPAddr inet_ntop a = "") := by
  refine ⟨?_, ?_, ?_, ?_, ?_, ?_⟩
  · by_cases h : res.retVal = 0
    · simp [hostnameToIPAddr, resolveFirstSpec, h, hostnameLoop_eq_find]
    · simp [hostnameToIPAddr, resolveFirstSpec, h]
  · intro h
    simp [hostnameToIPAddr, h]
  · intro h pre r post hrec hpre hr
    simp only [hostnameToIPAddr, h, ne_eq, not_true_eq_false, if_false, hrec]
    exact hostnameLoop_first inet_ntop pre r post hpre hr
  · intro h hall
    simp only [hostnameToIPAddr, h, ne_eq, not_true_eq_false, if_false]
    exact hostnameLoop_none inet_ntop res.records hall
  · intro h hnil
    simp [hostnameToIPAddr, h, hnil, hostnameLoop]
  · intro a h4 h6
    simp [sockaddrToIPAddr, h4, h6]

/-! ### The one-shot send -/

theorem setSocketBlocking_close_not_mem (os : FcntlResults) (s : Int) (b : Bool) (fd : Int) :
    Event.close fd ∉ (setSocketBlocking os s b).trace := by
  unfold setSocketBlocking
  by_cases hg : os.getfl = -1 <;> simp [hg]

theorem connectAttempt_close_not_mem (env : Env) (os : ConnectResults) (sockfd : Int)
    (addr : sockaddr) (addrsize fd : Int) :
    Event.close fd ∉ (connectAttempt env os sockfd addr addrsize).trace := by
  obtain ⟨w, tmo, ht, _⟩ := connectAttempt_trace_shape env os sockfd addr addrsize
  rw [ht]
  by_cases h3 : os.connect = -1
  · by_cases h4 : os.select > 0 <;> simp [h3, h4]
  · simp [h3]

theorem connect_adv_close_not_mem (env : Env) (os : ConnectResults) (sockfd : Int)
    (addr : sockaddr) (addrsize fd : Int) :
    Event.close fd ∉ (connect_adv env os sockfd addr addrsize).trace := by
  intro h
  rcases connect_adv_trace env os sockfd addr addrsize with ht | ht <;> rw [ht] at h
  · exact setSocketBlocking_close_not_mem _ _ _ _ h
  · simp only [List.mem_append] at h
    rcases h with (h | h) | h
    · exact setSocketBlocking_close_not_mem _ _ _ _ h
    · exact connectAttempt_close_not_mem _ _ _ _ _ _ h
    · exact setSocketBlocking_close_not_mem _ _ _ _ h

theorem startConnect_close_not_mem (env : Env) (os : ConnectResults) (sHost : Int)
    (addr : String) (port fd : Int) :
    Event.close fd ∉ (startConnect env os sHost addr port).trace := by
  unfold startConnect
  by_cases h4 : env.isIPv4 addr = true
  · simp only [h4, if_true]
    exact connect_adv_close_not_mem _ _ _ _ _ _
  · by_cases h6 : env.isIPv6 addr = true
    · simp only [h4, h6, if_true, if_false]
      exact connect_adv_close_not_mem _ _ _ _ _ _
    · simp [h4, h6]

theorem closeCount_startConnect (env : Env) (os : ConnectResults) (sHost : Int)
    (addr : String) (port fd : Int) :
    closeCount fd (startConnect env os sHost addr port).trace = 0 := by
  unfold closeCount
  exact List.count_eq_zero.mpr (startConnect_close_not_mem env os sHost addr port fd)

theorem simpleSend_connected (env : Env) (os : SendResults) (addr : String) (port : Int)
    (data : Bytes) (hs : os.socket ≠ INVALID_SOCKET)
    (hc : (startConnect env os.conn os.socket addr port).ret = 0) :
    simpleSend env os addr port data =
      ⟨if toUInt (toInt os.send) = (data.length : Int) then 0 else SOCKET_ERROR,
       [Event.socket (getNetworkType env addr) SOCK_STREAM IPPROTO_IP os.socket] ++
         (startConnect env os.conn os.socket addr port).trace ++
         (setTimeout os.timeo os.socket 3000).trace ++
         (send_simple os.send os.socket data).trace ++ [Event.close os.socket]⟩ := by
  unfold simpleSend
  by_cases hr : toUInt (toInt os.send) = (data.length : Int)
  · simp [hs, hc, hr, send_simple, Send]
  · simp [hs, hc, hr, send_simple, Send]

theorem simpleSend_not_connected (env : Env) (os : SendResults) (addr : String) (port : Int)
    (data : Bytes) (hs : os.socket ≠ INVALID_SOCKET)
    (hc : (startConnect env os.conn os.socket addr port).ret ≠ 0) :
    simpleSend env os addr port data =
      ⟨SOCKET_ERROR,
       [Event.socket (getNetworkType env addr) SOCK_STREAM IPPROTO_IP os.socket] ++
         (startConnect env os.conn os.socket addr port).trace⟩ := by
  unfold simpleSend
  simp [hs, hc]

/-- C1, evaluated where it fails: socket 3 is created for `127.0.0.1`, the
connection is refused so that the connector returns 1, and `simpleSend`
returns `SOCKET_ERROR` having made no `close` call on socket 3 (line 199
returns without the `closesocket` that lines 204 and 213 perform). -/
theorem simpleSend_refused_never_closes :
    sendRefused.socket ≠ INVALID_SOCKET ∧
    (startConnect posixEnv sendRefused.conn 3 "127.0.0.1" 1).ret = 1 ∧
    (simpleSend posixEnv sendRefused "127.0.0.1" 1 [120]).ret = SOCKET_ERROR ∧
    closeCount 3 (simpleSend posixEnv sendRefused "127.0.0.1" 1 [120]).trace = 0 := by
  decide

/-- X1: how often `simpleSend` closes the socket it created: once when the
connector returned 0 (whatever `setsockopt` and `send` then report, and as the
last call made), never when the connector returned a non-zero value. -/
theorem simpleSend_close_count (env : Env) (os : SendResults) (addr : String) (port : Int)
    (data : Bytes) (hs : os.socket ≠ INVALID_SOCKET) :
    closeCount os.socket (simpleSend env os addr port data).trace =
        (if (startConnect env os.conn os.socket addr port).ret = 0 then 1 else 0) ∧
    ((startConnect env os.conn os.socket addr port).ret = 0 →
        (simpleSend env os addr port data).trace.getLast? = some (Event.close os.socket)) := by
  by_cases hc : (startConnect env os.conn os.socket addr port).ret = 0
  · rw [simpleSend_connected env os addr port data hs hc]
    constructor
    · have h0 := closeCount_startConnect env os.conn os.socket addr port os.socket
      unfold closeCount at h0 ⊢
      simp [List.count_append, h0, hc, setTimeout, send_simple, Send, List.count_cons]
    · intro _
      exact List.getLast?_concat _
  · rw [simpleSend_not_connected env os addr port data hs hc]
    constructor
    · have h0 := closeCount_startConnect env os.conn os.socket addr port os.socket
      unfold closeCount at h0 ⊢
      simp [List.count_append, h0, hc, List.count_cons]
    · intro h
      exact absurd h hc

/-- Witness for X1: an established connection and a complete send;
socket 3 is closed once, by the last call. -/
theorem simpleSend_close_count_witness :
    closeCount 3 (simpleSend posixEnv ⟨3, connectEstablished, ⟨0, 0⟩, 1⟩ "127.0.0.1" 7
      [120]).trace = 1 :=
  (simpleSend_close_count posixEnv ⟨3, connectEstablished, ⟨0, 0⟩, 1⟩ "127.0.0.1" 7 [120]
    (by decide)).1

/-- C3, evaluated where it fails: with a payload of `2^32 - 1` bytes, socket 3
created and the connector returning 0, a `send` that reports `-1` makes
`simpleSend` return 0: the `int` result `-1` stored in the `unsigned int`
`retVal` is `4294967295`, which equals `data.size()`. -/
theorem simpleSend_failed_send_returns_zero :
    sendFails.socket ≠ INVALID_SOCKET ∧
    (startConnect posixEnv sendFails.conn 3 "127.0.0.1" 7).ret = 0 ∧
    sendFails.send = -1 ∧
    sendFails.send ≠ ((List.replicate 4294967295 (0 : Fin 256)).length : Int) ∧
    (simpleSend posixEnv sendFails "127.0.0.1" 7 (List.replicate 4294967295 0)).ret = 0 := by
  have hs : sendFails.socket ≠ INVALID_SOCKET := by decide
  have hc : (startConnect posixEnv sendFails.conn sendFails.socket "127.0.0.1" 7).ret = 0 := by
    decide
  refine ⟨hs, hc, rfl, ?_, ?_⟩
  · rw [List.length_replicate]
    decide
  · rw [simpleSend_connected posixEnv sendFails "127.0.0.1" 7 _ hs hc, List.length_replicate]
    decide

/-- X2: the success criterion of `simpleSend` on payloads shorter than `2^31`
bytes: when the socket was opened, the connector returned 0 and `send`
reports a value that fits an `int`, `simpleSend` returns 0 if and only if
`send` reported exactly `data.size()` bytes, and `SOCKET_ERROR` otherwise. -/
theorem simpleSend_success_iff (env : Env) (os : SendResults) (addr : String) (port : Int)
    (data : Bytes) (hs : os.socket ≠ INVALID_SOCKET)
    (hc : (startConnect env os.conn os.socket addr port).ret = 0)
    (hlen : (data.length : Int) < 2147483648)
    (hlo : -2147483648 ≤ os.send) (hhi : os.send < 2147483648) :
    ((simpleSend env os addr port data).ret = 0 ↔ os.send = (data.length : Int)) ∧
    (os.send ≠ (data.length : Int) → (simpleSend env os addr port data).ret = SOCKET_ERROR) := by
  rw [simpleSend_connected env os addr port data hs hc]
  have hconv : toUInt (toInt os.send) = (data.length : Int) ↔ os.send = (data.length : Int) := by
    unfold toUInt toInt
    split <;> omega
  by_cases hr : os.send = (data.length : Int)
  · rw [if_pos (hconv.mpr hr)]
    exact ⟨⟨fun _ => hr, fun _ => rfl⟩, fun hne => absurd hr hne⟩
  · have hn : ¬ toUInt (toInt os.send) = (data.length : Int) := fun h => hr (hconv.mp h)
    rw [if_neg hn]
    have hne : SOCKET_ERROR ≠ 0 := by decide
    exact ⟨⟨fun h => absurd h hne, fun h => absurd h hr⟩, fun _ => rfl⟩

/-- Witness for X2, on the two-byte payload `hi`: a complete send gives 0,
a `send` that reports `-1` gives `SOCKET_ERROR`. -/
theorem simpleSend_success_iff_witness :
    ((simpleSend posixEnv ⟨3, connectEstablished, ⟨0, 0⟩, 2⟩ "127.0.0.1" 7 [104, 105]).ret = 0 ↔
      (2 : Int) = 2) ∧
    (simpleSend posixEnv sendFails "127.0.0.1" 7 [104, 105]).ret = SOCKET_ERROR :=
  ⟨(simpleSend_success_iff posixEnv ⟨3, connectEstablished, ⟨0, 0⟩, 2⟩ "127.0.0.1" 7 [104, 105]
      (by decide) (by decide) (by decide) (by decide) (by decide)).1,
   by decide⟩

/-- Counterexample to C4 as stated: `not-an-ip` is neither an IPv4 nor an IPv6
literal, yet `simpleSend` makes a socket-creation attempt (with family
`AF_UNSPEC`), here rejected by the system. -/
theorem simpleSend_invalid_address_calls_socket :
    posixEnv.isIPv4 "not-an-ip" = false ∧ posixEnv.isIPv6 "not-an-ip" = false ∧
    (simpleSend posixEnv socketRejected "not-an-ip" 80 [120]).trace =
      [Event.socket AF_UNSPEC SOCK_STREAM IPPROTO_IP (-1)] ∧
    ¬ socketCalls (simpleSend posixEnv socketRejected "not-an-ip" 80 [120]).trace = 0 := by
  decide

/-- C4 as amended: for an address that is neither an IPv4 nor an IPv6 literal,
`simpleSend` returns the non-zero value `SOCKET_ERROR` and attempts no
`connect`; its first system call is one socket-creation attempt with family
`AF_UNSPEC`, the only such attempt, and when that attempt fails it is the only
system call made, so that no socket is opened. -/
theorem simpleSend_invalid_address (env : Env) (os : SendResults) (addr : String)
    (port : Int) (data : Bytes)
    (h4 : env.isIPv4 addr = false) (h6 : env.isIPv6 addr = false) :
    (simpleSend env os addr port data).ret = SOCKET_ERROR ∧
    (simpleSend env os addr port data).ret ≠ 0 ∧
    connectCalls (simpleSend env os addr port data).trace = 0 ∧
    (simpleSend env os addr port data).trace.head? =
        some (Event.socket AF_UNSPEC SOCK_STREAM IPPROTO_IP os.socket) ∧
    socketCalls (simpleSend env os addr port data).trace = 1 ∧
    (os.socket = INVALID_SOCKET →
      (simpleSend env os addr port data).trace =
        [Event.socket AF_UNSPEC SOCK_STREAM IPPROTO_IP INVALID_SOCKET]) := by
  have hsc : startConnect env os.conn os.socket addr port = ⟨-1, []⟩ := by
    simp [startConnect, h4, h6]
  have hnt : getNetworkType env addr = AF_UNSPEC := by
    simp [getNetworkType, h4, h6]
  by_cases hs : os.socket = INVALID_SOCKET
  · simp [simpleSend, hs, hnt, SOCKET_ERROR, connectCalls, socketCalls, Event.isConnect,
      Event.isSocket]
  · have hc : (startConnect env os.conn os.socket addr port).ret ≠ 0 := by
      rw [hsc]; decide
    rw [simpleSend_not_connected env os addr port data hs hc, hsc, hnt]
    simp [hs, SOCKET_ERROR, connectCalls, socketCalls, Event.isConnect, Event.isSocket]

/-- Witness for the amended C4: the address `not-an-ip`, socket creation
rejected. -/
theorem simpleSend_invalid_address_witness :
    (simpleSend posixEnv socketRejected "not-an-ip" 80 [120]).ret = SOCKET_ERROR ∧
    connectCalls (simpleSend posixEnv socketRejected "not-an-ip" 80 [120]).trace = 0 :=
  ⟨(simpleSend_invalid_address posixEnv socketRejected "not-an-ip" 80 [120]
      (by decide) (by decide)).1,
   (simpleSend_invalid_address posixEnv socketRejected "not-an-ip" 80 [120]
      (by decide) (by decide)).2.2.1⟩

/-- C6, evaluated where it fails: the `SO_SNDTIMEO` call returns `-1`, the
`SO_RCVTIMEO` call returns 0, and `setTimeout` returns 0. -/
theorem setTimeout_hides_send_failure :
    sndtimeoFails.sndtimeo = -1 ∧ sndtimeoFails.rcvtimeo = 0 ∧
    setTimeout sndtimeoFails 3 3000 =
      ⟨0, [Event.setsockopt 3 SOL_SOCKET SO_SNDTIMEO ⟨3, 0⟩ (-1),
           Event.setsockopt 3 SOL_SOCKET SO_RCVTIMEO ⟨3, 0⟩ 0]⟩ := by
  decide

/-- X3: `setTimeout` returns the result of the `SO_RCVTIMEO` call, whatever
the `SO_SNDTIMEO` call returned; both calls are always made, in that order. -/
theorem setTimeout_returns_last (os : TimeoutResults) (s timeout : Int) :
    (setTimeout os s timeout).ret = os.rcvtimeo ∧
    (setTimeout os s timeout).trace.map
        (fun e => match e with
          | Event.setsockopt fd level optname _ r => (fd, level, optname, r)
          | _ => (0, 0, 0, 0)) =
      [(s, SOL_SOCKET, SO_SNDTIMEO, os.sndtimeo), (s, SOL_SOCKET, SO_RCVTIMEO, os.rcvtimeo)] := by
  simp [setTimeout]

end ShipControl
